import Mathlib

/-!
# Verification of the 4-Castr confidence-scoring engine

Shallow embedding of the three core scripts
(`fetch_astro_data.py`, `calculate_fibonacci_levels.py`,
`calculate_confidence_scores.py`) and proofs settling the frozen claims
about them.  Dates are modelled as integer day numbers, prices and
scores as rationals, pandas tables as lists of records.
-/

attribute [local semireducible] Rat.add Rat.sub Rat.mul

namespace FourCastr

/-- Python's `/` on rationals, written through `Rat.divInt` so that the kernel
can evaluate it on concrete inputs.  Agrees with field division (`pyDiv_eq_div`);
division by zero never occurs in the embedded code paths that use it. -/
def pyDiv (a b : ℚ) : ℚ := Rat.divInt (a.num * (b.den : ℤ)) ((a.den : ℤ) * b.num)

theorem pyDiv_eq_div (a b : ℚ) : pyDiv a b = a / b := by
  rcases eq_or_ne b 0 with hb | hb
  · subst hb
    simp [pyDiv]
  · have hbn : (b.num : ℚ) ≠ 0 := by
      exact_mod_cast Rat.num_ne_zero.mpr hb
    have had : ((a.den : ℕ) : ℚ) ≠ 0 := by
      exact_mod_cast a.den_nz
    have hbd : ((b.den : ℕ) : ℚ) ≠ 0 := by
      exact_mod_cast b.den_nz
    have ha2 : (a.num : ℚ) = a * a.den :=
      ((eq_div_iff had).mp (Rat.num_div_den a).symm).symm
    have hb3 : (b.num : ℚ) = b * b.den :=
      ((eq_div_iff hbd).mp (Rat.num_div_den b).symm).symm
    unfold pyDiv
    rw [Rat.divInt_eq_div]
    push_cast
    rw [div_eq_div_iff (mul_ne_zero had hbn) hb, ha2, hb3]
    ring

/-! ## Zodiac signs (`fetch_astro_data.py`, `ZODIAC_SIGNS` / `get_zodiac_sign`) -/

structure ZodiacSign where
  name : String
  ruler : String
  element : String
  modality : String
deriving DecidableEq, Repr

def ZODIAC_SIGNS : List ZodiacSign :=
  [⟨"Aries", "Mars", "fire", "cardinal"⟩,
   ⟨"Taurus", "Venus", "earth", "fixed"⟩,
   ⟨"Gemini", "Mercury", "air", "mutable"⟩,
   ⟨"Cancer", "Moon", "water", "cardinal"⟩,
   ⟨"Leo", "Sun", "fire", "fixed"⟩,
   ⟨"Virgo", "Mercury", "earth", "mutable"⟩,
   ⟨"Libra", "Venus", "air", "cardinal"⟩,
   ⟨"Scorpio", "Mars", "water", "fixed"⟩,
   ⟨"Sagittarius", "Jupiter", "fire", "mutable"⟩,
   ⟨"Capricorn", "Saturn", "earth", "cardinal"⟩,
   ⟨"Aquarius", "Saturn", "air", "fixed"⟩,
   ⟨"Pisces", "Jupiter", "water", "mutable"⟩]

/-- Python's `int()` applied to a rational: truncation toward zero.
`q.num.tdiv q.den` truncates the reduced fraction toward zero. -/
def pyTrunc (q : ℚ) : ℤ := q.num.tdiv (q.den : ℤ)

/-- Floor of a rational, written so that the kernel can evaluate it. -/
def ratFloor (q : ℚ) : ℤ := q.num / (q.den : ℤ)

theorem ratFloor_eq_floor (q : ℚ) : ratFloor q = ⌊q⌋ := by
  rw [Rat.floor_def]; rfl

theorem pyTrunc_eq_floor (q : ℚ) (h : 0 ≤ q) : pyTrunc q = ⌊q⌋ := by
  rw [Rat.floor_def]
  exact Int.tdiv_eq_ediv (Rat.num_nonneg.mpr h) (Int.natCast_nonneg _)

/-- `get_zodiac_sign`: `sign_index = int(longitude / 30) % 12`, then index
into `ZODIAC_SIGNS`.  Python `%` on a positive modulus is `Int.emod`. -/
def get_zodiac_sign (longitude : ℚ) : ZodiacSign :=
  ZODIAC_SIGNS.getD (pyTrunc (pyDiv longitude 30) % 12).toNat ⟨"", "", "", ""⟩

/-! ## Rating thresholds (`calculate_confidence_scores.py` lines 356-383) -/

def FEATURED_THRESHOLD : ℚ := 85
def FAVORABLE_THRESHOLD : ℚ := 70
def NEUTRAL_THRESHOLD : ℚ := 50

/-- The `if/elif` chain assigning `rating` from `total_score`. -/
def determine_rating (total_score : ℚ) : String :=
  if total_score ≥ FEATURED_THRESHOLD then "featured"
  else if total_score ≥ FAVORABLE_THRESHOLD then "favorable"
  else if total_score ≥ NEUTRAL_THRESHOLD then "neutral"
  else "unfavorable"

/-- `'is_featured': total_score >= FEATURED_THRESHOLD`. -/
def is_featured (total_score : ℚ) : Bool :=
  decide (total_score ≥ FEATURED_THRESHOLD)

/-- C8: the rating is featured iff total ≥ 85, favorable iff 70 ≤ total < 85,
neutral iff 50 ≤ total < 70, unfavorable iff total < 50, and the featured
flag holds iff total ≥ 85. -/
theorem rating_thresholds (t : ℚ) :
    (determine_rating t = "featured" ↔ 85 ≤ t) ∧
    (determine_rating t = "favorable" ↔ 70 ≤ t ∧ t < 85) ∧
    (determine_rating t = "neutral" ↔ 50 ≤ t ∧ t < 70) ∧
    (determine_rating t = "unfavorable" ↔ t < 50) ∧
    (is_featured t = true ↔ 85 ≤ t) := by
  unfold determine_rating is_featured FEATURED_THRESHOLD FAVORABLE_THRESHOLD NEUTRAL_THRESHOLD
  split_ifs with h1 h2 h3 <;>
    refine ⟨?_, ?_, ?_, ?_, ?_⟩ <;>
    simp_all <;>
    first
      | linarith
      | (intro h; linarith)

/-- C5 counterexample: `sign(-15) ≠ sign(-15 + 360·1)`.  Python `int()`
truncates toward zero, so `int(-15/30) = 0` (Aries) while
`int(345/30) = 11` (Pisces). -/
theorem zodiac_not_periodic_negative :
    get_zodiac_sign (-15) ≠ get_zodiac_sign (-15 + 360 * 1) := by
  decide

/-- C5 amended: for nonnegative longitudes the sign is 360-periodic:
for every `L ≥ 0` and integer `k` with `L + 360k ≥ 0`,
`sign(L + 360k) = sign(L)`. -/
theorem zodiac_periodic_nonneg (L : ℚ) (k : ℤ) (hL : 0 ≤ L)
    (hLk : 0 ≤ L + 360 * (k:ℚ)) :
    get_zodiac_sign (L + 360 * (k:ℚ)) = get_zodiac_sign L := by
  unfold get_zodiac_sign
  rw [pyDiv_eq_div, pyDiv_eq_div]
  have h1 : (0:ℚ) ≤ L / 30 := div_nonneg hL (by norm_num)
  have h2 : (0:ℚ) ≤ (L + 360 * (k:ℚ)) / 30 := div_nonneg hLk (by norm_num)
  rw [pyTrunc_eq_floor _ h2, pyTrunc_eq_floor _ h1]
  have hdiv : (L + 360 * (k:ℚ)) / 30 = L / 30 + ((12 * k : ℤ) : ℚ) := by
    push_cast
    ring
  rw [hdiv, Int.floor_add_int]
  have hmod : (⌊L / 30⌋ + 12 * k) % 12 = ⌊L / 30⌋ % 12 := by
    omega
  rw [hmod]

/-- C5 amended witness: instantiation at `L = 45`, `k = 2`. -/
theorem zodiac_periodic_nonneg_witness :
    (0:ℚ) ≤ 45 ∧ (0:ℚ) ≤ 45 + 360 * ((2:ℤ):ℚ) ∧
      get_zodiac_sign (45 + 360 * ((2:ℤ):ℚ)) = get_zodiac_sign 45 :=
  ⟨by norm_num, by norm_num,
    zodiac_periodic_nonneg 45 2 (by norm_num) (by norm_num)⟩

/-! ## Sector classification
(`calculate_confidence_scores.py`, `SECTOR_RULERSHIPS` / `identify_sector`) -/

/-- `needle` occurs at the start of `hay` (helper for Python's `in`). -/
def strMatchAt : List Char → List Char → Bool
  | [], _ => true
  | _ :: _, [] => false
  | a :: ns, b :: hs => a == b && strMatchAt ns hs

/-- Python's substring test `needle in hay`. -/
def strContains (hay needle : List Char) : Bool :=
  match hay with
  | [] => needle.isEmpty
  | c :: t => strMatchAt needle (c :: t) || strContains t needle

structure SectorDef where
  sector : String
  rulers : List String
  favorable_signs : List String
  keywords : List (List Char)
deriving DecidableEq

/-- The ordered `SECTOR_RULERSHIPS` dict; Python dicts preserve insertion
order, and `identify_sector` iterates in that order. -/
def SECTOR_RULERSHIPS : List SectorDef :=
  [⟨"tech", ["Uranus", "Mercury"], ["Aquarius", "Gemini", "Virgo"],
    ["tech".toList, "software".toList, "innovation".toList, "digital".toList,
     "ai".toList, "computer".toList]⟩,
   ⟨"athletics", ["Mars"], ["Aries", "Scorpio"],
    ["sport".toList, "athletic".toList, "nike".toList, "fitness".toList,
     "gym".toList, "energy".toList]⟩,
   ⟨"finance", ["Jupiter", "Venus"], ["Taurus", "Sagittarius", "Libra"],
    ["bank".toList, "financial".toList, "wealth".toList, "insurance".toList,
     "capital".toList]⟩,
   ⟨"luxury", ["Venus"], ["Taurus", "Libra"],
    ["luxury".toList, "beauty".toList, "fashion".toList, "jewelry".toList,
     "cosmetic".toList]⟩,
   ⟨"healthcare", ["Neptune", "Pluto"], ["Virgo", "Pisces", "Scorpio"],
    ["health".toList, "pharma".toList, "medical".toList, "hospital".toList,
     "drug".toList, "biotech".toList]⟩,
   ⟨"real_estate", ["Saturn"], ["Capricorn", "Taurus"],
    ["real estate".toList, "construction".toList, "property".toList,
     "building".toList, "home".toList]⟩,
   ⟨"communication", ["Mercury"], ["Gemini", "Virgo"],
    ["media".toList, "communication".toList, "telecom".toList,
     "broadcast".toList, "news".toList]⟩,
   ⟨"entertainment", ["Sun", "Venus"], ["Leo", "Libra"],
    ["entertainment".toList, "movie".toList, "gaming".toList,
     "music".toList, "streaming".toList]⟩]

/-- The `category_defaults` dict lookup (`.get(category, None)`);
`'equities'` maps to an explicit `None`. -/
def category_default (category : String) : Option String :=
  if category == "crypto" then some "tech"
  else if category == "forex" then some "finance"
  else if category == "rates-macro" then some "finance"
  else if category == "stress" then some "finance"
  else if category == "commodities" then some "real_estate"
  else none

/-- `identify_sector`: first keyword match over the ordered sector table wins,
else fall back to the category default. -/
def identify_sector (symbol category : String) : Option String :=
  let symbol_lower := symbol.toList.map Char.toLower
  match SECTOR_RULERSHIPS.find? (fun s => s.keywords.any (strContains symbol_lower)) with
  | some s => some s.sector
  | none => category_default category

/-- C6 counterexample: `"AIBANK"` contains the substring `"bank"`, yet it
classifies to `tech` (its lowercase form also contains `"ai"`, a keyword of
the `tech` sector, which is scanned before `finance`), for every category —
here `"forex"`. -/
theorem identify_sector_bank_not_always_finance :
    strContains ("AIBANK".toList.map Char.toLower) "bank".toList = true ∧
      identify_sector "AIBANK" "forex" = some "tech" ∧
      some "tech" ≠ some "finance" := by
  refine ⟨by decide, by decide, by decide⟩

/-- C6 amended: a symbol whose lowercase form contains `"bank"` and contains
no keyword of the earlier-scanned `tech` and `athletics` sectors classifies
to `finance` for every category; the category default table is not consulted. -/
theorem identify_sector_bank_finance (symbol category : String)
    (hbank : strContains (List.map Char.toLower symbol.data) "bank".toList = true)
    (h1 : strContains (List.map Char.toLower symbol.data) "tech".toList = false)
    (h2 : strContains (List.map Char.toLower symbol.data) "software".toList = false)
    (h3 : strContains (List.map Char.toLower symbol.data) "innovation".toList = false)
    (h4 : strContains (List.map Char.toLower symbol.data) "digital".toList = false)
    (h5 : strContains (List.map Char.toLower symbol.data) "ai".toList = false)
    (h6 : strContains (List.map Char.toLower symbol.data) "computer".toList = false)
    (g1 : strContains (List.map Char.toLower symbol.data) "sport".toList = false)
    (g2 : strContains (List.map Char.toLower symbol.data) "athletic".toList = false)
    (g3 : strContains (List.map Char.toLower symbol.data) "nike".toList = false)
    (g4 : strContains (List.map Char.toLower symbol.data) "fitness".toList = false)
    (g5 : strContains (List.map Char.toLower symbol.data) "gym".toList = false)
    (g6 : strContains (List.map Char.toLower symbol.data) "energy".toList = false) :
    identify_sector symbol category = some "finance" := by
  unfold identify_sector SECTOR_RULERSHIPS
  simp only [String.toList] at hbank h1 h2 h3 h4 h5 h6 g1 g2 g3 g4 g5 g6
  simp [List.find?, List.any, h1, h2, h3, h4, h5, h6, g1, g2, g3, g4, g5, g6,
    hbank]

/-- C6 amended witness: `"WORLDBANK"` in the `"equities"` category (whose
category default is null) classifies to `finance`. -/
theorem identify_sector_bank_finance_witness :
    identify_sector "WORLDBANK" "equities" = some "finance" :=
  identify_sector_bank_finance "WORLDBANK" "equities"
    (by decide) (by decide) (by decide) (by decide) (by decide) (by decide)
    (by decide) (by decide) (by decide) (by decide) (by decide) (by decide)
    (by decide)

/-! ## Confidence scoring (`calculate_confidence_scores.py`)

Event-log rows as produced by `fetch_astro_data.py` and consumed through
pandas.  In the generated `aspects.csv`, primary rows carry
`primary_scoring=True` and (when the column exists) a NaN `bonus_eligible`,
which the filter `== True` treats as `False`; bonus rows carry
`primary_scoring=False`, `bonus_eligible=True`, `exact=True` and an
`influence_weight`.  Booleans model those filters faithfully. -/

structure AspectRow where
  date : Int
  body1 : String
  body2 : String
  aspect_type : String
  aspect_nature : String
  orb : ℚ
  exact : Bool
  primary_scoring : Bool
  bonus_eligible : Bool
  influence_weight : ℚ
deriving DecidableEq

structure RetroRow where
  date : Int
  body : String
  status : String
  sign : String
  stationary : Bool
  primary_scoring : Bool
deriving DecidableEq

structure IngressRow where
  date : Int
  body : String
  sign : String
deriving DecidableEq

structure LunarRow where
  date : Int
  phase : String
deriving DecidableEq

structure CycleRow where
  date : Int
  bonus_eligible : Bool
deriving DecidableEq

/-- The non-null payload of `SECTOR_RULERSHIPS.get(sector)` as used by the
scorers: `rulers` and `favorable_signs`. -/
structure SectorInfo where
  rulers : List String
  favorable_signs : List String
deriving DecidableEq

/-- `ASPECT_SCORES` lookup: the `harmonious` dict when the nature is
`harmonious`, the `harsh` dict otherwise, each with `.get(type, 0)`. -/
def aspectBase (nature ty : String) : ℚ :=
  if nature == "harmonious" then
    if ty == "conjunction" then 0
    else if ty == "sextile" then 15
    else if ty == "trine" then 20
    else 0
  else
    if ty == "square" then -15
    else if ty == "opposition" then -10
    else 0

/-- Membership of a date in the ±3-day scoring window. -/
def inWindow (current_date d : Int) : Bool :=
  decide (current_date - 3 ≤ d) && decide (d ≤ current_date + 3)

/-- `score_planetary_aspects` (lines 184-250), for a table whose
`primary_scoring` and `bonus_eligible` columns are present.  The three loops
are folds in row order. -/
def score_planetary_aspects (current_date : Int) (aspects : List AspectRow)
    (retrogrades : List RetroRow) (sector_info : Option SectorInfo) : ℚ :=
  match sector_info with
  | none => 20
  | some si =>
    if aspects.isEmpty then 20
    else
      let active_aspects := aspects.filter (fun a => inWindow current_date a.date)
      if active_aspects.isEmpty then 20
      else
        let sector_rulers := si.rulers
        let primary_aspects := active_aspects.filter (fun a => a.primary_scoring)
        let s1 := primary_aspects.foldl (fun score a =>
          let base_score := aspectBase a.aspect_nature a.aspect_type
          let base_score :=
            if sector_rulers.contains a.body1 || sector_rulers.contains a.body2 then
              base_score * Rat.divInt 3 2
            else base_score
          score + base_score) 20
        let s2 :=
          if retrogrades.isEmpty then s1
          else
            (retrogrades.filter (fun r =>
              inWindow current_date r.date && r.status == "starts")).foldl
              (fun score r =>
                if sector_rulers.contains r.body then score - 10 else score) s1
        let s3 := (active_aspects.filter (fun a => a.bonus_eligible)).foldl
          (fun score b =>
            if b.exact then score + pyDiv b.influence_weight 100 * 5 else score) s2
        max 0 (min 40 s3)

/-- `score_ingress_period` (lines 151-181). `iloc[-1]` is the last row of the
filtered frame in file order. -/
def score_ingress_period (current_date : Int) (ingresses : List IngressRow)
    (sector_info : Option SectorInfo) : ℚ :=
  match sector_info with
  | none => 15
  | some si =>
    if ingresses.isEmpty then 15
    else
      let sun_ingresses := (ingresses.filter (fun r => r.body == "Sun")).filter
        (fun r => decide (r.date ≤ current_date))
      match sun_ingresses.getLast? with
      | none => 15
      | some current_ingress =>
        if si.favorable_signs.contains current_ingress.sign then 30
        else if ["Aries", "Leo", "Sagittarius"].contains current_ingress.sign then 22
        else if ["Taurus", "Virgo", "Capricorn"].contains current_ingress.sign then 20
        else if ["Gemini", "Libra", "Aquarius"].contains current_ingress.sign then 18
        else 12

/-- The `phase_scores` dict with `.get(phase, 10)`. -/
def phase_score_table (phase : String) : ℚ :=
  if phase == "new" then 18
  else if phase == "waxing_crescent" then 16
  else if phase == "first_quarter" then 15
  else if phase == "waxing_gibbous" then 14
  else if phase == "full" then 12
  else if phase == "waning_gibbous" then 10
  else if phase == "last_quarter" then 8
  else if phase == "waning_crescent" then 6
  else 10

/-- `score_lunar_phase` (lines 253-282). -/
def score_lunar_phase (current_date : Int) (lunar_phases : List LunarRow) : ℚ :=
  if lunar_phases.isEmpty then 10
  else
    match (lunar_phases.filter (fun r => decide (r.date ≤ current_date))).getLast? with
    | none => 10
    | some row => phase_score_table row.phase

/-- `score_18yr_lunar_cycle` (lines 285-305). -/
def score_18yr_lunar_cycle (current_date : Int) (lunar_cycle : List CycleRow) : ℚ :=
  if lunar_cycle.isEmpty then 0
  else
    let active_cycles := lunar_cycle.filter (fun r =>
      decide (current_date - 30 ≤ r.date) && decide (r.date ≤ current_date + 30))
    if (active_cycles.filter (fun r => r.bonus_eligible)).isEmpty then 0 else 10

/-- `calculate_confidence_score`'s total (lines 354-356):
`base = ingress + aspects + lunar`, `total = base + cycle_bonus`. -/
def confidence_total (current_date : Int) (ingresses : List IngressRow)
    (aspects : List AspectRow) (retrogrades : List RetroRow)
    (lunar_phases : List LunarRow) (lunar_cycle : List CycleRow)
    (sector_info : Option SectorInfo) : ℚ :=
  score_ingress_period current_date ingresses sector_info
    + score_planetary_aspects current_date aspects retrogrades sector_info
    + score_lunar_phase current_date lunar_phases
    + score_18yr_lunar_cycle current_date lunar_cycle

/-! ### Fold-to-sum helper lemmas -/

theorem foldl_add_base {α : Type} (f : α → ℚ) (l : List α) :
    ∀ init : ℚ, List.foldl (fun s a => s + f a) init l = init + (l.map f).sum := by
  induction l with
  | nil => intro init; simp
  | cons a t ih =>
    intro init
    simp only [List.foldl_cons, List.map_cons, List.sum_cons, ih]
    ring

theorem foldl_retro_penalty {α : Type} (p : α → Bool) (l : List α) :
    ∀ init : ℚ, List.foldl (fun s r => if p r then s - 10 else s) init l
      = init - 10 * ((l.countP p : ℕ) : ℚ) := by
  induction l with
  | nil => intro init; simp
  | cons a t ih =>
    intro init
    by_cases h : p a = true
    · rw [List.foldl_cons, if_pos h, ih]
      simp only [List.countP_cons, h, ite_true]
      push_cast
      ring
    · rw [List.foldl_cons, if_neg h, ih]
      simp [List.countP_cons, h]

theorem foldl_bonus_add {α : Type} (p : α → Bool) (f : α → ℚ) (l : List α) :
    ∀ init : ℚ, List.foldl (fun s b => if p b then s + f b else s) init l
      = init + ((l.filter p).map f).sum := by
  induction l with
  | nil => intro init; simp
  | cons a t ih =>
    intro init
    by_cases h : p a = true <;>
      simp only [List.foldl_cons, h, List.filter_cons, Bool.false_eq_true,
        ite_true, ite_false, List.map_cons, List.sum_cons, ih] <;>
      ring

/-! ### C1: the aspect-score formula -/

/-- Contribution of one primary-tier aspect row: the base value, multiplied
by 3/2 when a sector ruler is involved. -/
def primaryContrib (rulers : List String) (a : AspectRow) : ℚ :=
  if rulers.contains a.body1 || rulers.contains a.body2 then
    aspectBase a.aspect_nature a.aspect_type * Rat.divInt 3 2
  else aspectBase a.aspect_nature a.aspect_type

/-- The aspect score exactly as claim C1 words it: always the clamp to
`[0,40]` of 20 plus the primary contributions, minus 10 per **primary-tier**
retrograde start in window whose body is a ruler, plus the bonus terms. -/
def aspect_score_claimed (current_date : Int) (aspects : List AspectRow)
    (retrogrades : List RetroRow) (si : SectorInfo) : ℚ :=
  let active := aspects.filter (fun a => inWindow current_date a.date)
  max 0 (min 40
    (20 + ((active.filter (fun a => a.primary_scoring)).map
        (primaryContrib si.rulers)).sum
      - 10 * (((retrogrades.filter (fun r =>
          inWindow current_date r.date && r.status == "starts"
            && r.primary_scoring)).countP
          (fun r => si.rulers.contains r.body) : ℕ) : ℚ)
      + (((active.filter (fun a => a.bonus_eligible)).filter
          (fun b => b.exact)).map
          (fun b => pyDiv b.influence_weight 100 * 5)).sum))

/-- The amended aspect-score formula: 20 whenever no aspect event falls in
the window, and otherwise the clamped sum in which the retrograde penalty
applies to retrograde starts of **any** tier whose body is a sector ruler. -/
def aspect_score_amended (current_date : Int) (aspects : List AspectRow)
    (retrogrades : List RetroRow) (si : SectorInfo) : ℚ :=
  let active := aspects.filter (fun a => inWindow current_date a.date)
  if active.isEmpty then 20
  else
    max 0 (min 40
      (20 + ((active.filter (fun a => a.primary_scoring)).map
          (primaryContrib si.rulers)).sum
        - 10 * (((retrogrades.filter (fun r =>
            inWindow current_date r.date && r.status == "starts")).countP
            (fun r => si.rulers.contains r.body) : ℕ) : ℚ)
        + (((active.filter (fun a => a.bonus_eligible)).filter
            (fun b => b.exact)).map
            (fun b => pyDiv b.influence_weight 100 * 5)).sum))

/-- A sector profile (tech) and rows used as concrete scoring inputs. -/
def tech_sector : SectorInfo := ⟨["Uranus", "Mercury"], ["Aquarius", "Gemini", "Virgo"]⟩

/-- A primary-tier Sun–Moon trine on day 0. -/
def ex_aspect : AspectRow :=
  ⟨0, "Sun", "Moon", "trine", "harmonious", 2, false, true, false, 0⟩

/-- A bonus-tier Uranus retrograde start on day 0 (`primary_scoring=False`). -/
def ex_retro : RetroRow := ⟨0, "Uranus", "starts", "Taurus", true, false⟩

/-- C1 counterexample: with the tech sector (ruler Uranus), one in-window
primary Sun–Moon trine and one in-window **bonus-tier** Uranus retrograde
start, the code scores 20+20−10 = 30 (it never filters the retrograde frame
by tier), while the claim's formula — whose penalty needs a primary-tier
retrograde — gives 40. -/
theorem aspect_score_claim_counterexample :
    score_planetary_aspects 0 [ex_aspect] [ex_retro] (some tech_sector) = 30 ∧
      aspect_score_claimed 0 [ex_aspect] [ex_retro] tech_sector = 40 ∧
      (30 : ℚ) ≠ 40 :=
  ⟨by decide, by decide, by decide⟩

/-- C1 amended: for every non-null sector profile, event logs and scoring
date, the code's aspect score equals the amended formula, which returns 20
when no aspect event is in the window and otherwise subtracts 10 per
retrograde start (any tier) in window whose body is a sector ruler. -/
theorem aspect_score_eq_amended (current_date : Int) (aspects : List AspectRow)
    (retrogrades : List RetroRow) (si : SectorInfo) :
    score_planetary_aspects current_date aspects retrogrades (some si)
      = aspect_score_amended current_date aspects retrogrades si := by
  unfold score_planetary_aspects aspect_score_amended
  by_cases hA : aspects.isEmpty
  · have hnil : aspects = [] := by
      cases aspects with
      | nil => rfl
      | cons a t => simp [List.isEmpty] at hA
    subst hnil
    simp
  · simp only [hA, Bool.false_eq_true, if_false, ite_false]
    by_cases hAct : (aspects.filter (fun a => inWindow current_date a.date)).isEmpty
    · simp [hAct]
    · simp only [hAct, Bool.false_eq_true, if_false, ite_false]
      rw [show (List.foldl (fun score a =>
            let base_score := aspectBase a.aspect_nature a.aspect_type
            let base_score :=
              if si.rulers.contains a.body1 || si.rulers.contains a.body2 then
                base_score * Rat.divInt 3 2
              else base_score
            score + base_score) 20
            ((aspects.filter (fun a => inWindow current_date a.date)).filter
              (fun a => a.primary_scoring)))
          = List.foldl (fun s a => s + primaryContrib si.rulers a) 20
            ((aspects.filter (fun a => inWindow current_date a.date)).filter
              (fun a => a.primary_scoring)) from rfl]
      rw [foldl_add_base]
      by_cases hR : retrogrades.isEmpty
      · have hrnil : retrogrades = [] := by
          cases retrogrades with
          | nil => rfl
          | cons r t => simp [List.isEmpty] at hR
        subst hrnil
        simp only [hR, List.filter_nil, List.countP_nil, ite_true]
        rw [foldl_bonus_add]
        norm_num
      · simp only [hR, Bool.false_eq_true, if_false, ite_false]
        rw [foldl_retro_penalty, foldl_bonus_add]

/-! ### C2: the total can never exceed 100 -/

theorem score_ingress_period_le (current_date : Int) (ingresses : List IngressRow)
    (sector_info : Option SectorInfo) :
    score_ingress_period current_date ingresses sector_info ≤ 30 := by
  unfold score_ingress_period
  rcases sector_info with _ | si
  · norm_num
  · dsimp only
    split
    · norm_num
    · split
      · norm_num
      · split_ifs <;> norm_num

theorem score_planetary_aspects_le (current_date : Int) (aspects : List AspectRow)
    (retrogrades : List RetroRow) (sector_info : Option SectorInfo) :
    score_planetary_aspects current_date aspects retrogrades sector_info ≤ 40 := by
  unfold score_planetary_aspects
  rcases sector_info with _ | si
  · norm_num
  · dsimp only
    split
    · norm_num
    · split
      · norm_num
      · exact le_trans (max_le (by norm_num) (min_le_left _ _)) (le_refl _)

theorem score_lunar_phase_le (current_date : Int) (lunar_phases : List LunarRow) :
    score_lunar_phase current_date lunar_phases ≤ 18 := by
  unfold score_lunar_phase
  split
  · norm_num
  · split
    · norm_num
    · unfold phase_score_table
      split_ifs <;> norm_num

theorem score_18yr_lunar_cycle_le (current_date : Int) (lunar_cycle : List CycleRow) :
    score_18yr_lunar_cycle current_date lunar_cycle ≤ 10 := by
  unfold score_18yr_lunar_cycle
  split
  · norm_num
  · dsimp only
    split <;> norm_num

/-- C2 counterexample (the claim's negation): no combination of event logs,
sector classification and scoring date makes the total exceed 100 — the
component caps 30+40+18+10 sum to 98 < 100. -/
theorem confidence_total_never_exceeds_100 :
    ¬ ∃ (current_date : Int) (ingresses : List IngressRow)
        (aspects : List AspectRow) (retrogrades : List RetroRow)
        (lunar_phases : List LunarRow) (lunar_cycle : List CycleRow)
        (sector_info : Option SectorInfo),
      100 < confidence_total current_date ingresses aspects retrogrades
        lunar_phases lunar_cycle sector_info := by
  rintro ⟨d, ing, asp, ret, lun, cyc, si, h⟩
  have h1 := score_ingress_period_le d ing si
  have h2 := score_planetary_aspects_le d asp ret si
  have h3 := score_lunar_phase_le d lun
  have h4 := score_18yr_lunar_cycle_le d cyc
  unfold confidence_total at h
  linarith

/-- C2 amended: the total score is bounded by 98 = 30+40+18+10 for every
combination of inputs, and the bound is attained, so it never exceeds 100. -/
theorem confidence_total_le_98 :
    (∀ (current_date : Int) (ingresses : List IngressRow)
        (aspects : List AspectRow) (retrogrades : List RetroRow)
        (lunar_phases : List LunarRow) (lunar_cycle : List CycleRow)
        (sector_info : Option SectorInfo),
      confidence_total current_date ingresses aspects retrogrades
        lunar_phases lunar_cycle sector_info ≤ 98) ∧
    confidence_total 0 [⟨0, "Sun", "Aquarius"⟩]
      [⟨0, "Sun", "Uranus", "trine", "harmonious", 0, true, true, false, 0⟩]
      [] [⟨0, "new"⟩] [⟨0, true⟩] (some tech_sector) = 98 := by
  constructor
  · intro d ing asp ret lun cyc si
    have h1 := score_ingress_period_le d ing si
    have h2 := score_planetary_aspects_le d asp ret si
    have h3 := score_lunar_phase_le d lun
    have h4 := score_18yr_lunar_cycle_le d cyc
    unfold confidence_total
    linarith
  · decide

/-! ### C4: the aspect scorer crashes on a table with no bonus-tier rows

`score_planetary_aspects` runs `active_aspects.get('bonus_eligible', False)
== True` and indexes the frame with the result.  When the aspects CSV holds
no bonus-tier row, `pd.DataFrame(...)` never creates the `bonus_eligible`
column, `.get` returns the scalar `False`, the comparison yields the scalar
`False`, and `active_aspects[False]` raises `KeyError`.  The same pattern
guards `primary_scoring` (default `True`, so `df[True]`).  The wrapper
models column presence at table level; `none` is the raised exception. -/

structure AspectTable where
  rows : List AspectRow
  hasPrimaryCol : Bool
  hasBonusCol : Bool
deriving DecidableEq

def score_planetary_aspects_df (current_date : Int) (tbl : AspectTable)
    (retrogrades : List RetroRow) (sector_info : Option SectorInfo) : Option ℚ :=
  match sector_info with
  | none => some 20
  | some si =>
    if tbl.rows.isEmpty then some 20
    else
      let active := tbl.rows.filter (fun a => inWindow current_date a.date)
      if active.isEmpty then some 20
      else if !tbl.hasPrimaryCol then none
      else if !tbl.hasBonusCol then none
      else some (score_planetary_aspects current_date tbl.rows retrogrades (some si))

/-- An aspects table as written by a generator run that produced only
primary-tier aspects: non-empty rows, no `bonus_eligible` column. -/
def no_bonus_table : AspectTable := ⟨[ex_aspect], true, false⟩

/-- C4: aspect scoring is *not* total — on a non-empty aspects table with no
bonus-tier rows (hence no `bonus_eligible` column) the scorer raises
(`none`), while the same rows with both columns present score 40. -/
theorem aspect_scoring_not_total :
    score_planetary_aspects_df 0 no_bonus_table [] (some tech_sector) = none ∧
      no_bonus_table.rows ≠ [] ∧
      no_bonus_table.rows.all (fun a => a.primary_scoring) = true ∧
      score_planetary_aspects_df 0 ⟨[ex_aspect], true, true⟩ []
        (some tech_sector) = some 40 :=
  ⟨by decide, by decide, by decide, by decide⟩

/-! ## Anchor-price resolution (`calculate_fibonacci_levels.py`,
`get_anchor_price` lines 93-122)

A pandas cell as seen by `row.get(key, default)` followed by
`pd.notna(price)`: the key can be missing from the row (`Cell.absent`, so
`.get` falls through to its default), present but NaN (`Cell.nan`), or a
number. -/

inductive Cell where
  | absent
  | nan
  | val (q : ℚ)
deriving DecidableEq

structure PriceRow where
  date : Int
  symbol : String
  price : Cell
  high : Cell
  low : Cell
deriving DecidableEq

/-- `price_df[(price_df['date'] == d) & (price_df['symbol'] == symbol)]`. -/
def rowsFor (price_df : List PriceRow) (d : Int) (symbol : String) : List PriceRow :=
  price_df.filter (fun r => decide (r.date = d) && r.symbol == symbol)

/-- The fixed probe order of `for offset in [-3, -2, -1, 1, 2, 3]`. -/
def probeOffsets : List Int := [-3, -2, -1, 1, 2, 3]

/-- The probe loop: reassign `date_match` each iteration, `break` on the
first non-empty frame; after an exhausted loop the last (empty) frame
remains. -/
def probeLoop (price_df : List PriceRow) (anchor_date : Int) (symbol : String) :
    List Int → List PriceRow → List PriceRow
  | [], date_match => date_match
  | offset :: rest, _ =>
    let date_match := rowsFor price_df (anchor_date + offset) symbol
    if date_match.isEmpty then probeLoop price_df anchor_date symbol rest date_match
    else date_match

/-- The row-selection part of `get_anchor_price`: exact date first, then the
±3-day probes. -/
def findAnchorRows (price_df : List PriceRow) (anchor_date : Int)
    (symbol : String) : List PriceRow :=
  let date_match := rowsFor price_df anchor_date symbol
  if date_match.isEmpty then probeLoop price_df anchor_date symbol probeOffsets date_match
  else date_match

/-- `row.get('high', row.get('price', None))` (resp. `'low'`): the specific
field is returned whenever its key exists — even when NaN — and the generic
`price` only substitutes when the specific key is absent. -/
def rowPriceFor (anchor_type : String) (row : PriceRow) : Cell :=
  if anchor_type == "high" then
    match row.high with
    | Cell.absent => row.price
    | c => c
  else
    match row.low with
    | Cell.absent => row.price
    | c => c

/-- `get_anchor_price`: `None` when no row resolves or when the selected
value fails `price is not None and pd.notna(price)`. -/
def get_anchor_price (price_df : List PriceRow) (anchor_date : Int)
    (anchor_type : String) (symbol : String) : Option ℚ :=
  match (findAnchorRows price_df anchor_date symbol).head? with
  | none => none
  | some row =>
    match rowPriceFor anchor_type row with
    | Cell.val q => some q
    | _ => none

/-- A row whose `high` cell is NaN while the generic `price` is valid. -/
def nan_high_row : PriceRow :=
  ⟨0, "X", Cell.val 100, Cell.nan, Cell.val 50⟩

/-- C3 counterexample: for an anchor of kind `high` resolving to a row whose
`high` field is NaN and whose `price` is the valid number 100, the resolver
returns `None` (the anchor is dropped) instead of falling back to 100:
`row.get('high', ...)` only falls through when the key is absent, and the
NaN then fails `pd.notna`. -/
theorem anchor_price_nan_not_fallback :
    nan_high_row.high = Cell.nan ∧
      nan_high_row.price = Cell.val 100 ∧
      get_anchor_price [nan_high_row] 0 "high" "X" = none :=
  ⟨by decide, by decide, by decide⟩

/-- C3 amended: the fallback to the generic price happens only when the
specific field is **absent**; when the specific field is present but NaN the
anchor is dropped (`none`) even if the generic price is a valid number. -/
theorem anchor_price_fallback_only_absent (price_df : List PriceRow)
    (anchor_date : Int) (symbol : String) (row : PriceRow)
    (hrow : (findAnchorRows price_df anchor_date symbol).head? = some row) :
    (row.high = Cell.nan →
      get_anchor_price price_df anchor_date "high" symbol = none) ∧
    (∀ q : ℚ, row.high = Cell.absent → row.price = Cell.val q →
      get_anchor_price price_df anchor_date "high" symbol = some q) ∧
    (row.low = Cell.nan →
      get_anchor_price price_df anchor_date "low" symbol = none) ∧
    (∀ q : ℚ, row.low = Cell.absent → row.price = Cell.val q →
      get_anchor_price price_df anchor_date "low" symbol = some q) := by
  refine ⟨?_, ?_, ?_, ?_⟩
  · intro hh
    simp [get_anchor_price, rowPriceFor, hrow, hh]
  · intro q hh hp
    simp [get_anchor_price, rowPriceFor, hrow, hh, hp]
  · intro hl
    simp [get_anchor_price, rowPriceFor, hrow, hl]
  · intro q hl hp
    simp [get_anchor_price, rowPriceFor, hrow, hl, hp]

/-- A row whose `high` key is missing and whose `price` is valid. -/
def absent_high_row : PriceRow :=
  ⟨0, "X", Cell.val 7, Cell.absent, Cell.absent⟩

/-- C3 amended witness: on a one-row table whose `high` key is absent and
`price = 7`, the resolver falls back and returns 7; on `nan_high_row` it
returns `none`. -/
theorem anchor_price_fallback_only_absent_witness :
    get_anchor_price [absent_high_row] 0 "high" "X" = some 7 ∧
      get_anchor_price [nan_high_row] 0 "high" "X" = none :=
  ⟨(anchor_price_fallback_only_absent [absent_high_row] 0 "X" absent_high_row
      (by decide)).2.1 7 (by decide) (by decide),
    (anchor_price_fallback_only_absent [nan_high_row] 0 "X" nan_high_row
      (by decide)).1 (by decide)⟩

/-! ### C7: probe order -/

theorem probeLoop_head_eq_findSome (price_df : List PriceRow) (anchor_date : Int)
    (symbol : String) :
    ∀ (offsets : List Int) (dm : List PriceRow), dm = [] →
      (probeLoop price_df anchor_date symbol offsets dm).head?
        = offsets.findSome? (fun o => (rowsFor price_df (anchor_date + o) symbol).head?) := by
  intro offsets
  induction offsets with
  | nil =>
    intro dm hdm
    subst hdm
    rfl
  | cons o rest ih =>
    intro dm _
    show (if (rowsFor price_df (anchor_date + o) symbol).isEmpty then
        probeLoop price_df anchor_date symbol rest
          (rowsFor price_df (anchor_date + o) symbol)
      else rowsFor price_df (anchor_date + o) symbol).head?
      = _
    by_cases h : (rowsFor price_df (anchor_date + o) symbol).isEmpty
    · have hnil : rowsFor price_df (anchor_date + o) symbol = [] := by
        cases hr : rowsFor price_df (anchor_date + o) symbol with
        | nil => rfl
        | cons a t => rw [hr] at h; simp [List.isEmpty] at h
      rw [if_pos h, ih _ hnil, List.findSome?_cons]
      rw [hnil]
      rfl
    · have hne : rowsFor price_df (anchor_date + o) symbol ≠ [] := by
        intro hc
        rw [hc] at h
        simp at h
      rw [if_neg h, List.findSome?_cons]
      cases hr : rowsFor price_df (anchor_date + o) symbol with
      | nil => exact absurd hr hne
      | cons a t => rfl

/-- C7: when no row matches the anchor date exactly, the resolver probes the
offsets in the fixed order −3, −2, −1, +1, +2, +3 and selects the first
offset with a matching row (`List.findSome?` over that order); in
particular, whenever rows exist at both −3 and +1, the −3 row is the one
resolved. -/
theorem anchor_probe_order (price_df : List PriceRow) (anchor_date : Int)
    (symbol : String) (hexact : rowsFor price_df anchor_date symbol = []) :
    ((findAnchorRows price_df anchor_date symbol).head?
        = probeOffsets.findSome?
            (fun o => (rowsFor price_df (anchor_date + o) symbol).head?)) ∧
    (∀ r rs r2 rs2, rowsFor price_df (anchor_date - 3) symbol = r :: rs →
      rowsFor price_df (anchor_date + 1) symbol = r2 :: rs2 →
      (findAnchorRows price_df anchor_date symbol).head? = some r) := by
  have hbase : (findAnchorRows price_df anchor_date symbol).head?
      = probeOffsets.findSome?
          (fun o => (rowsFor price_df (anchor_date + o) symbol).head?) := by
    unfold findAnchorRows
    rw [hexact]
    exact probeLoop_head_eq_findSome price_df anchor_date symbol probeOffsets [] rfl
  refine ⟨hbase, ?_⟩
  intro r rs r2 rs2 hm3 hp1
  rw [hbase]
  unfold probeOffsets
  rw [List.findSome?_cons]
  have : anchor_date + (-3) = anchor_date - 3 := by ring
  rw [this, hm3]
  rfl

/-- C7 witness: a table with rows only at offsets −3 and +1 from day 0; the
−3 row is resolved even though +1 is nearer. -/
def row_m3 : PriceRow := ⟨-3, "X", Cell.val 11, Cell.absent, Cell.absent⟩

def row_p1 : PriceRow := ⟨1, "X", Cell.val 22, Cell.absent, Cell.absent⟩

theorem anchor_probe_order_witness :
    (findAnchorRows [row_m3, row_p1] 0 "X").head? = some row_m3 :=
  (anchor_probe_order [row_m3, row_p1] 0 "X" (by decide)).2
    row_m3 [] row_p1 [] (by decide) (by decide)

/-! ## 18.6-year nodal cycle (`fetch_astro_data.py`,
`calculate_lunar_cycle_phase` lines 164-214, `main` lines 468-474) -/

/-- Python's float `%` with a positive modulus: `a - m*floor(a/m)`. -/
def pyFmod (a m : ℚ) : ℚ := a - m * (ratFloor (pyDiv a m) : ℚ)

/-- `cycle_length = 6793.5`. -/
def cycle_length : ℚ := Rat.divInt 13587 2

/-- `cycle_position = (days_since_j2000 % cycle_length) / cycle_length * 360`. -/
def cycle_position (days_since_j2000 : Int) : ℚ :=
  pyDiv (pyFmod (days_since_j2000 : ℚ) cycle_length) cycle_length * 360

structure CyclePhase where
  degree : ℚ
  phase_name : String
  orb : ℚ
deriving DecidableEq

/-- The ordered `cycle_phases` table (degree, name, per-phase orb). -/
def cycle_phases : List CyclePhase :=
  [⟨0, "start", 2⟩,
   ⟨90, "first_quadrature", 2⟩,
   ⟨137, "fibonacci_38", 3⟩,
   ⟨180, "opposition", 1⟩,
   ⟨223, "fibonacci_61", 3⟩,
   ⟨270, "second_quadrature", 2⟩,
   ⟨360, "completion", 1⟩]

/-- The loop condition `diff = abs(cycle_position - degree); diff < orb`. -/
def phaseMatches (pos : ℚ) (p : CyclePhase) : Bool := decide (|pos - p.degree| < p.orb)

/-- The `for ... break` over `cycle_phases`: first matching entry in
declaration order. -/
def match_key_phase (pos : ℚ) : Option CyclePhase :=
  cycle_phases.find? (phaseMatches pos)

/-- `main` stores a `NodalCyclePhaseRecord` for the day iff `key_phase` is
non-None. -/
def nodal_cycle_recorded (days_since_j2000 : Int) : Bool :=
  (match_key_phase (cycle_position days_since_j2000)).isSome

/-- `find?` returns the element at the first index whose predicate holds. -/
theorem find?_eq_getD_of_first {α : Type} (p : α → Bool) (l : List α) (dflt : α) :
    ∀ i : ℕ, i < l.length → p (l.getD i dflt) = true →
      (∀ j : ℕ, j < i → p (l.getD j dflt) = false) →
      l.find? p = some (l.getD i dflt) := by
  induction l with
  | nil =>
    intro i hi
    simp at hi
  | cons a t ih =>
    intro i hi hp hprev
    cases i with
    | zero =>
      exact List.find?_cons_of_pos _ hp
    | succ i =>
      have ha : p a = false := hprev 0 (Nat.succ_pos _)
      rw [List.find?_cons_of_neg _ (by simp [ha])]
      exact ih i (by simpa using hi) hp (fun j hj => hprev (j + 1) (by omega))

/-- C9: for every day, a nodal record is stored iff some key phase's own orb
contains `|cycle_position − degree|`, and the matcher returns the FIRST
phase of the declaration-ordered table whose orb matches — not the closest:
whenever the phase at index `i` matches and no earlier index does, index `i`
is selected. -/
theorem nodal_cycle_first_match (days_since_j2000 : Int) :
    (nodal_cycle_recorded days_since_j2000 = true ↔
      ∃ p ∈ cycle_phases,
        |cycle_position days_since_j2000 - p.degree| < p.orb) ∧
    (∀ i : ℕ, i < cycle_phases.length →
      phaseMatches (cycle_position days_since_j2000)
        (cycle_phases.getD i ⟨0, "", 0⟩) = true →
      (∀ j : ℕ, j < i →
        phaseMatches (cycle_position days_since_j2000)
          (cycle_phases.getD j ⟨0, "", 0⟩) = false) →
      match_key_phase (cycle_position days_since_j2000)
        = some (cycle_phases.getD i ⟨0, "", 0⟩)) := by
  constructor
  · unfold nodal_cycle_recorded match_key_phase
    rw [List.find?_isSome]
    simp [phaseMatches]
  · intro i hi hp hprev
    exact find?_eq_getD_of_first (phaseMatches (cycle_position days_since_j2000))
      cycle_phases ⟨0, "", 0⟩ i hi hp hprev

/-- C9 witness: on day 1698 after J2000 the position is 407520/4529 ≈ 89.98°;
`start` (index 0) does not match, `first_quadrature` (index 1) does, and the
matcher returns it. -/
theorem nodal_cycle_first_match_witness :
    match_key_phase (cycle_position 1698) = some ⟨90, "first_quadrature", 2⟩ := by
  have h := (nodal_cycle_first_match 1698).2 1 (by decide) (by decide)
    (fun j hj => by
      have hj0 : j = 0 := Nat.lt_one_iff.mp hj
      subst hj0
      decide)
  exact h

/-! ## Event generation (`fetch_astro_data.py`, `main` lines 408-453,
`detect_ingresses` lines 339-358) -/

structure PosInfo where
  longitude : ℚ
  speed : ℚ
  retrograde : Bool
  stationary : Bool
  sign : ZodiacSign
deriving DecidableEq

/-- A day's `positions` dict, in insertion order. -/
def PosMap : Type := List (String × PosInfo)

/-- Python `dict.get` / `in` lookup over an ordered association list. -/
def lookupKey {β : Type} : List (String × β) → String → Option β
  | [], _ => none
  | (b, v) :: t, key => if b == key then some v else lookupKey t key

/-- Python `dict[key] = v`: replace in place, else append. -/
def updateKey {β : Type} : List (String × β) → String → β → List (String × β)
  | [], key, v => [(key, v)]
  | (b, w) :: t, key, v =>
    if b == key then (key, v) :: t else (b, w) :: updateKey t key v

structure IngressEvent where
  date : Int
  body : String
  sign : String
  from_sign : String
  ruler : String
  element : String
deriving DecidableEq

/-- A `retrogrades.csv` row; the bonus fields exist only for outer bodies. -/
structure RetroEvent where
  date : Int
  body : String
  status : String
  sign : String
  stationary : Bool
  primary_scoring : Bool
  bonus_eligible : Option Bool
  influence_weight : Option ℚ
deriving DecidableEq

def PRIMARY_PLANET_NAMES : List String :=
  ["Sun", "Moon", "Mercury", "Venus", "Mars", "Jupiter", "Saturn"]

def OUTER_PLANET_NAMES : List String := ["Uranus", "Neptune", "Pluto"]

/-- `list(all_bodies.keys())[2:]`: every body except Sun and Moon. -/
def RETRO_BODIES : List String :=
  ["Mercury", "Venus", "Mars", "Jupiter", "Saturn", "Uranus", "Neptune", "Pluto"]

def outer_influence (body : String) : ℚ :=
  if body == "Uranus" then 90 else if body == "Neptune" then 85 else 95

/-- `detect_ingresses`: for each primary body present in the previous day's
map, emit an event when its sign name changed.  (The generator's daily
position maps always contain every primary body.) -/
def detect_ingresses (current previous : PosMap) (date : Int) : List IngressEvent :=
  PRIMARY_PLANET_NAMES.foldl (fun acc body =>
    match lookupKey previous body with
    | none => acc
    | some ppos =>
      match lookupKey current body with
      | none => acc
      | some cpos =>
        if cpos.sign.name != ppos.sign.name then
          acc ++ [⟨date, body, cpos.sign.name, ppos.sign.name,
            cpos.sign.ruler, cpos.sign.element⟩]
        else acc) []

def mkRetroEvent (date : Int) (body : String) (pos : PosInfo) : RetroEvent :=
  { date := date
    body := body
    status := if pos.retrograde then "starts" else "ends"
    sign := pos.sign.name
    stationary := pos.stationary
    primary_scoring := !(OUTER_PLANET_NAMES.contains body)
    bonus_eligible :=
      if OUTER_PLANET_NAMES.contains body then some pos.stationary else none
    influence_weight :=
      if OUTER_PLANET_NAMES.contains body then some (outer_influence body) else none }

/-- The retrograde-station loop of `main`: emit only when the body already
has a recorded previous flag that differs from today's; always record
today's flag (skipping bodies absent from `positions`, as `continue` does). -/
def retroScan (positions : PosMap) (date : Int) :
    List String → List (String × Bool) → List RetroEvent × List (String × Bool)
  | [], prev => ([], prev)
  | body :: rest, prev =>
    match lookupKey positions body with
    | none => retroScan positions date rest prev
    | some pos =>
      let evs :=
        match lookupKey prev body with
        | some old => if old != pos.retrograde then [mkRetroEvent date body pos] else []
        | none => []
      let next := retroScan positions date rest (updateKey prev body pos.retrograde)
      (evs ++ next.1, next.2)

/-- The loop-carried state: `previous_positions = None` and
`previous_retrogrades = {}` before the first day. -/
structure GenState where
  previous_positions : Option PosMap
  previous_retrogrades : List (String × Bool)

/-- One day of `main`'s loop, restricted to the two edge-detected streams. -/
def stepDay (positions : PosMap) (date : Int) (st : GenState) :
    List IngressEvent × List RetroEvent × GenState :=
  let ings :=
    match st.previous_positions with
    | none => []
    | some prev => detect_ingresses positions prev date
  let rx := retroScan positions date RETRO_BODIES st.previous_retrogrades
  (ings, rx.1, ⟨some positions, rx.2⟩)

def generate_events (provider : Int → PosMap) :
    List Int → GenState → List (Int × List IngressEvent × List RetroEvent)
  | [], _ => []
  | d :: ds, st =>
    let r := stepDay (provider d) d st
    (d, r.1, r.2.1) :: generate_events provider ds r.2.2

/-- The full run starts from `previous_positions = None`,
`previous_retrogrades = {}`. -/
def run_event_generator (provider : Int → PosMap) (dates : List Int) :
    List (Int × List IngressEvent × List RetroEvent) :=
  generate_events provider dates ⟨none, []⟩

theorem lookupKey_updateKey_ne {β : Type} (l : List (String × β)) (key key' : String)
    (v : β) (h : key' ≠ key) :
    lookupKey (updateKey l key v) key' = lookupKey l key' := by
  induction l with
  | nil =>
    show (if key == key' then some v else none) = none
    rw [if_neg]
    intro hc
    exact h (eq_of_beq hc).symm
  | cons hd t ih =>
    obtain ⟨b, w⟩ := hd
    show lookupKey (if b == key then (key, v) :: t else (b, w) :: updateKey t key v) key'
      = lookupKey ((b, w) :: t) key'
    by_cases hb : b == key
    · rw [if_pos hb]
      have hbk : b = key := eq_of_beq hb
      show (if key == key' then some v else lookupKey t key')
        = if b == key' then some w else lookupKey t key'
      rw [if_neg (fun hc => h (eq_of_beq hc).symm), if_neg]
      intro hc
      exact h ((eq_of_beq hc).symm.trans hbk)
    · rw [if_neg hb]
      show (if b == key' then some w else lookupKey (updateKey t key v) key')
        = if b == key' then some w else lookupKey t key'
      by_cases hb' : b == key'
      · rw [if_pos hb', if_pos hb']
      · rw [if_neg hb', if_neg hb', ih]

theorem retroScan_events_nil (positions : PosMap) (date : Int) :
    ∀ (bodies : List String) (prev : List (String × Bool)),
      bodies.Nodup →
      (∀ b ∈ bodies, lookupKey prev b = none) →
      (retroScan positions date bodies prev).1 = [] := by
  intro bodies
  induction bodies with
  | nil =>
    intro prev _ _
    rfl
  | cons b rest ih =>
    intro prev hnd hprev
    have hnotmem : b ∉ rest := (List.nodup_cons.mp hnd).1
    have hndr : rest.Nodup := (List.nodup_cons.mp hnd).2
    show (match lookupKey positions b with
      | none => retroScan positions date rest prev
      | some pos =>
        let evs :=
          match lookupKey prev b with
          | some old => if old != pos.retrograde then [mkRetroEvent date b pos] else []
          | none => []
        let next := retroScan positions date rest (updateKey prev b pos.retrograde)
        (evs ++ next.1, next.2)).1 = []
    cases hp : lookupKey positions b with
    | none =>
      exact ih prev hndr (fun b' hb' => hprev b' (List.mem_cons_of_mem _ hb'))
    | some pos =>
      have hb : lookupKey prev b = none := hprev b (List.mem_cons_self _ _)
      have hrest : ∀ b' ∈ rest,
          lookupKey (updateKey prev b pos.retrograde) b' = none := by
        intro b' hb'
        rw [lookupKey_updateKey_ne _ _ _ _
          (fun hc => hnotmem (by rw [← hc]; exact hb'))]
        exact hprev b' (List.mem_cons_of_mem _ hb')
      simp only [hb]
      rw [List.nil_append]
      exact ih (updateKey prev b pos.retrograde) hndr hrest

/-- C10: whatever the position provider returns, the first day of any run
emits no IngressEvent and no RetrogradeEvent: ingress detection needs
`previous_positions` (None on day one) and retrograde detection needs a
previously recorded flag (the dict starts empty). -/
theorem first_day_emits_no_edge_events (provider : Int → PosMap) (d : Int)
    (ds : List Int) :
    (run_event_generator provider (d :: ds)).head? = some (d, [], []) := by
  unfold run_event_generator generate_events stepDay
  have h := retroScan_events_nil (provider d) d RETRO_BODIES []
    (by decide) (fun b _ => rfl)
  simp [h]

end FourCastr
